import Mathlib

/-
Verification of the TSL dino game's core numeric algorithms.

The shader-graph code (three.js TSL nodes) is shallowly embedded over the
rationals: every TSL float becomes a Lean rational, vector nodes become
structures of rationals, GLSL intrinsics (mix, mod, smoothstep, clamp,
select, fract) become the corresponding exact rational functions, and
texture lookups become function parameters.  CPU-side TypeScript (the
collision readback scan, the animation-loop gate, the jump integrator,
the restart handler) is embedded as explicit state-passing functions.
Names follow the source files.
-/

namespace TslDino

/-! ### GLSL primitives (three/tsl intrinsics used by the shaders) -/

/-- RGB color node with rational channels (a TSL vec3 used as a color). -/
structure Rgb where
  r : ℚ
  g : ℚ
  b : ℚ
deriving DecidableEq, Repr

/-- RGBA color node with rational channels (a TSL vec4 sprite sample). -/
structure Rgba where
  r : ℚ
  g : ℚ
  b : ℚ
  a : ℚ
deriving DecidableEq, Repr

/-- 2-D point node with rational coordinates (a TSL vec2). -/
structure Vec2 where
  x : ℚ
  y : ℚ
deriving DecidableEq, Repr

/-- GLSL scalar mix: linear interpolation a*(1-t) + b*t. -/
def glslMix (a b t : ℚ) : ℚ := a * (1 - t) + b * t

/-- Component-wise mix of two colors, as in mix(colorA, colorB, t). -/
def mixRgb (c d : Rgb) (t : ℚ) : Rgb :=
  ⟨glslMix c.r d.r t, glslMix c.g d.g t, glslMix c.b d.b t⟩

/-- Alpha blend of a sprite over a base color: mix(base, sprite.xyz, sprite.w),
the single compositing step used throughout the fragment shader. -/
def blendSprite (base : Rgb) (sprite : Rgba) : Rgb :=
  mixRgb base ⟨sprite.r, sprite.g, sprite.b⟩ sprite.a

/-- GLSL mod(x, y) = x - y * floor(x / y). -/
def glslMod (x y : ℚ) : ℚ := x - y * (⌊x / y⌋ : ℚ)

/-- GLSL smoothstep(edge0, edge1, x): Hermite ramp of the clamped
normalized position t = clamp((x-edge0)/(edge1-edge0), 0, 1). -/
def smoothstep (edge0 edge1 x : ℚ) : ℚ :=
  let t := min (max ((x - edge0) / (edge1 - edge0)) 0) 1
  t * t * (3 - 2 * t)

/-! ### Fragment composition pipeline (src/tsl/tslBackground.ts,
createFragmentShader, collision section lines 97-118 and tail 120-146).

The composed background (stars, moon, clouds, horizon over the #f7f7f7
base) reaching the collision section is abstracted as the incoming value
of finalColour; the sprite samples for the T-Rex, the obstacle, the score
UI and the game-over UI are parameters, since the claims quantify over
per-fragment sampled values. -/

/-- Pass 1 of the double-pass scheme: T-Rex blended behind obstacles. -/
def backLayerColor (base : Rgb) (trexSprite : Rgba) : Rgb :=
  blendSprite base trexSprite

/-- Back layer with the obstacle sprite blended on top. -/
def backLayerWithObstacles (base : Rgb) (trexSprite obstacleSprite : Rgba) : Rgb :=
  blendSprite (backLayerColor base trexSprite) obstacleSprite

/-- Pass 2: the same T-Rex sample blended again, in front of obstacles. -/
def frontLayerColor (base : Rgb) (trexSprite obstacleSprite : Rgba) : Rgb :=
  blendSprite (backLayerWithObstacles base trexSprite obstacleSprite) trexSprite

/-- colorDifference = (back - front).abs(), then
maxDifference = diff.x.max(diff.y).max(diff.z). -/
def maxColorDifference (base : Rgb) (trexSprite obstacleSprite : Rgba) : ℚ :=
  let back := backLayerWithObstacles base trexSprite obstacleSprite
  let front := frontLayerColor base trexSprite obstacleSprite
  max (max |back.r - front.r| |back.g - front.g|) |back.b - front.b|

/-- hasCollision = maxDifference.greaterThan(float(0.01)). -/
def hasCollision (base : Rgb) (trexSprite obstacleSprite : Rgba) : Bool :=
  decide (maxColorDifference base trexSprite obstacleSprite > 1/100)

/-- Night inversion input: vec3(1.0).sub(finalColour). -/
def invertColor (c : Rgb) : Rgb := ⟨1 - c.r, 1 - c.g, 1 - c.b⟩

/-- Tail of createFragmentShader after the horizon: double-pass collision
core, score overlay, conditional game-over overlay, night-mode inversion,
and finally the collision-color override via hasCollision.select. -/
def fragmentOutput (base : Rgb) (trexSprite obstacleSprite scoreSprite : Rgba)
    (isCrashed : Bool) (gameOverSprite restartSprite : Rgba)
    (nightProgress : ℚ) (collisionColor : Rgb) : Rgb :=
  let front := frontLayerColor base trexSprite obstacleSprite
  let withScore := blendSprite front scoreSprite
  let withUi :=
    if isCrashed then blendSprite (blendSprite withScore gameOverSprite) restartSprite
    else withScore
  let inverted := mixRgb withUi (invertColor withUi) nightProgress
  if hasCollision base trexSprite obstacleSprite then collisionColor else inverted

/-! ### Sprite sampler (spriteUtils.ts, sampleSprite) -/

/-- Normalization factor: 100 pixels = 1 world unit. -/
def PIXELS_PER_UNIT : ℚ := 100

/-- Sprite sheet pixel width (LDPI sheet). -/
def SPRITE_SHEET_WIDTH : ℚ := 1233

/-- Sprite sheet pixel height (LDPI sheet). -/
def SPRITE_SHEET_HEIGHT : ℚ := 68

/-- The in-bounds test of sampleSprite: both axes of p/scale within half
the sprite's world-unit box (inclusive comparisons, as in the source's
greaterThanEqual/lessThanEqual chain). -/
def spriteInBounds (p : Vec2) (scale spriteWidth spriteHeight : ℚ) : Bool :=
  let spriteWidthUnits := spriteWidth / PIXELS_PER_UNIT
  let spriteHeightUnits := spriteHeight / PIXELS_PER_UNIT
  let localPx := p.x / scale
  let localPy := p.y / scale
  let halfWidth := spriteWidthUnits / 2
  let halfHeight := spriteHeightUnits / 2
  decide (-halfWidth ≤ localPx) && decide (localPx ≤ halfWidth) &&
    decide (-halfHeight ≤ localPy) && decide (localPy ≤ halfHeight)

/-- sampleSprite: bounds-check then UV-map into the sheet and sample the
texture (the texture is a function parameter); out of bounds yields
transparent black vec4(0,0,0,0). -/
def sampleSprite (tex : ℚ → ℚ → Rgba) (p : Vec2)
    (scale spriteX spriteY spriteWidth spriteHeight : ℚ) : Rgba :=
  let spriteWidthUnits := spriteWidth / PIXELS_PER_UNIT
  let spriteHeightUnits := spriteHeight / PIXELS_PER_UNIT
  let localPx := p.x / scale
  let localPy := p.y / scale
  let halfWidth := spriteWidthUnits / 2
  let halfHeight := spriteHeightUnits / 2
  let spriteUVx := (localPx + halfWidth) / spriteWidthUnits
  let spriteUVy := (halfHeight - localPy) / spriteHeightUnits
  let textureUVx := (spriteX + spriteUVx * spriteWidth) / SPRITE_SHEET_WIDTH
  let textureUVy := 1 - (spriteY + spriteUVy * spriteHeight) / SPRITE_SHEET_HEIGHT
  let texelColor := tex textureUVx textureUVy
  if spriteInBounds p scale spriteWidth spriteHeight then texelColor else ⟨0, 0, 0, 0⟩

/-! ### Night-mode calculator (nightMode.ts, calculateNightMode) -/

/-- Score interval for toggling night mode. -/
def INVERT_DISTANCE : ℚ := 700

/-- Duration of night mode within each interval. -/
def NIGHT_WINDOW : ℚ := 300

/-- Duration of fade in/out transitions. -/
def TRANSITION_DURATION : ℚ := 10

/-- calculateNightMode(score) returning (nightProgress, nightCount),
the vec2 built by the source. -/
def calculateNightMode (score : ℚ) : ℚ × ℚ :=
  let isAfterFirstTrigger := INVERT_DISTANCE ≤ score
  let cyclePosition := glslMod (score - INVERT_DISTANCE) INVERT_DISTANCE
  let fadeInEnd := TRANSITION_DURATION
  let fadeOutStart := NIGHT_WINDOW - TRANSITION_DURATION
  let nightProgress :=
    if isAfterFirstTrigger then
      smoothstep 0 fadeInEnd cyclePosition * smoothstep NIGHT_WINDOW fadeOutStart cyclePosition
    else 0
  let nightCount : ℚ := (⌊score / INVERT_DISTANCE⌋ : ℚ)
  (nightProgress, nightCount)

/-! ### Collision readback scan (src/collision/collisionDetection.ts,
detectCollision lines 144-173) -/

/-- COLLISION_COLOR_DETECTION_TOLERANCE = 0.01. -/
def COLLISION_COLOR_DETECTION_TOLERANCE : ℚ := 1/100

/-- Per-pixel test of the scan loop: each byte divided by 255 within the
strict per-channel tolerance of the target collision color. -/
def isCollisionColor (r g b : ℕ) (targetR targetG targetB : ℚ) : Bool :=
  decide (|(r : ℚ) / 255 - targetR| < COLLISION_COLOR_DETECTION_TOLERANCE) &&
    decide (|(g : ℚ) / 255 - targetG| < COLLISION_COLOR_DETECTION_TOLERANCE) &&
    decide (|(b : ℚ) / 255 - targetB| < COLLISION_COLOR_DETECTION_TOLERANCE)

/-- The counting loop: for (i = 0; i < length; i += 4) over the flat RGBA
byte buffer, reading bytes i, i+1, i+2 (the alpha byte is skipped). -/
def collisionPixelCount (buf : List ℕ) (targetR targetG targetB : ℚ) : ℕ :=
  match buf with
  | r :: g :: b :: rest =>
      (if isCollisionColor r g b targetR targetG targetB then 1 else 0) +
        collisionPixelCount rest.tail targetR targetG targetB
  | _ => 0
termination_by buf.length
decreasing_by simp [List.length_tail]; omega

/-- detectCollision's verdict: true iff collisionPixelCount > 0. -/
def detectCollisionScan (buf : List ℕ) (targetR targetG targetB : ℚ) : Bool :=
  decide (0 < collisionPixelCount buf targetR targetG targetB)

/-! ### Animation-loop collision gate (src/main.ts, animate lines 319-341).

The loop state holds lastCollisionCheckTime and, to reason about the
claim, the number of readback promises currently in flight.  A frame
event carries the clock's elapsed time and the isGameRunning() verdict;
a resolve event is the continuation of one pending readback promise. -/

/-- COLLISION_DETECTION_INTERVAL = 0.05 seconds. -/
def COLLISION_DETECTION_INTERVAL : ℚ := 0.05

/-- One observable event of the animation loop's collision machinery. -/
inductive GateEvent where
  | frame (t : ℚ) (running : Bool)
  | resolve
deriving DecidableEq, Repr

/-- Gate-relevant state of the loop. -/
structure GateState where
  lastCollisionCheckTime : ℚ
  inFlight : ℕ
deriving DecidableEq, Repr

/-- State at page load: lastCollisionCheckTime = 0, nothing pending. -/
def loadGateState : GateState := ⟨0, 0⟩

/-- Whether a frame event fires detectCollision: isGameRunning() and
elapsed - lastCollisionCheckTime > COLLISION_DETECTION_INTERVAL. -/
def gateStarted (s : GateState) : GateEvent → Bool
  | .frame t running =>
      running && decide (COLLISION_DETECTION_INTERVAL < t - s.lastCollisionCheckTime)
  | .resolve => false

/-- Effect of one event: a firing frame starts one more readback and
stamps lastCollisionCheckTime; a resolve retires one readback. -/
def gateStep (s : GateState) (e : GateEvent) : GateState :=
  match e with
  | .frame t running =>
      if running && decide (COLLISION_DETECTION_INTERVAL < t - s.lastCollisionCheckTime) then
        { lastCollisionCheckTime := t, inFlight := s.inFlight + 1 }
      else s
  | .resolve => { s with inFlight := s.inFlight - 1 }

/-- Number of detectCollision starts fired while a previous readback
promise was still pending, along an event trace. -/
def startsWhileInFlight (s : GateState) : List GateEvent → ℕ
  | [] => 0
  | e :: es =>
      (if gateStarted s e && decide (0 < s.inFlight) then 1 else 0) +
        startsWhileInFlight (gateStep s e) es

/-- Elapsed times at which detectCollision is started, along a trace. -/
def startTimes (s : GateState) : List GateEvent → List ℚ
  | [] => []
  | e :: es =>
      match e with
      | .frame t _ =>
          if gateStarted s e then t :: startTimes (gateStep s e) es
          else startTimes (gateStep s e) es
      | .resolve => startTimes (gateStep s e) es

/-! ### Game state frame update and restart (src/main.ts, animate lines
287-311 and gameRestart lines 213-234) -/

/-- T-Rex states, doubling as the overall game state (spriteTRex.ts). -/
def TREX_STATE_WAITING : ℕ := 0

/-- Running state constant. -/
def TREX_STATE_RUNNING : ℕ := 1

/-- Jumping state constant. -/
def TREX_STATE_JUMPING : ℕ := 2

/-- Ducking state constant. -/
def TREX_STATE_DUCKING : ℕ := 3

/-- Crashed state constant. -/
def TREX_STATE_CRASHED : ℕ := 4

/-- GAME_SPEED_START = 3.8. -/
def GAME_SPEED_START : ℚ := 3.8

/-- GAME_SPEED_MAX = 7.8. -/
def GAME_SPEED_MAX : ℚ := 7.8

/-- The options record of main.ts, restricted to the fields the frame
update and restart logic read or write. -/
structure GameOptions where
  gameSpeed : ℚ
  gameSpeedAcceleration : ℚ
  trexState : ℕ
  jumpOffsetY : ℚ
  score : ℤ
  scoreCoefficient : ℚ
  distanceRan : ℚ
deriving DecidableEq, Repr

/-- isGameOver(): trexState === CRASHED. -/
def isGameOver (o : GameOptions) : Bool := o.trexState == TREX_STATE_CRASHED

/-- isGameRunning(): not waiting and not crashed. -/
def isGameRunning (o : GameOptions) : Bool :=
  o.trexState != TREX_STATE_WAITING && o.trexState != TREX_STATE_CRASHED

/-- The game-state section of animate(): only when isGameRunning, grow
gameSpeed toward the cap, advance distanceRan by speed * delta and derive
score = floor(distanceRan * scoreCoefficient). -/
def animateGameUpdate (o : GameOptions) (delta : ℚ) : GameOptions :=
  if isGameRunning o then
    let speed :=
      if o.gameSpeed < GAME_SPEED_MAX then o.gameSpeed + o.gameSpeedAcceleration * delta
      else o.gameSpeed
    let dist := o.distanceRan + speed * delta
    let calculatedScore := ⌊dist * o.scoreCoefficient⌋
    { o with gameSpeed := speed, distanceRan := dist, score := calculatedScore }
  else o

/-- Iterated frame updates over a sequence of per-frame deltas. -/
def animateFrames (o : GameOptions) (deltas : List ℚ) : GameOptions :=
  deltas.foldl animateGameUpdate o

/-- gameRestart(): reset distanceRan, gameSpeed, score, jumpOffsetY and
set trexState to RUNNING. -/
def gameRestart (o : GameOptions) : GameOptions :=
  { o with distanceRan := 0, gameSpeed := GAME_SPEED_START, score := 0,
           jumpOffsetY := 0, trexState := TREX_STATE_RUNNING }

/-! ### Obstacle dispatcher hashes (spritePterodactyl.ts /
spriteObstacle.ts, pseudoRandomObstacleType lines 283-301 and
pseudoRandomObstacleVariant lines 304-307).

The GPU sine intrinsic is an opaque real-valued primitive; it is taken
as a function parameter, so every theorem below holds for any sine
implementation. -/

/-- PTERODACTYL_MIN_SCORE = 450 (OBSTACLE_CONFIG). -/
def PTERODACTYL_MIN_SCORE : ℚ := 450

/-- pseudoRandomObstacleType: hash the segment index via
fract(sin(segmentIndex * 21.9898) * 43758.5453), then select the type:
below the pterodactyl score gate a 50/50 cactus split (0 small, 1 large),
above it a 40/30/30 split over 0, 1 and 2 (pterodactyl). -/
def pseudoRandomObstacleType (sin : ℚ → ℚ) (segmentIndex currentScore : ℚ) : ℚ :=
  let pseudoRandom := Int.fract (sin (segmentIndex * 21.9898) * 43758.5453)
  let pterodactylAvailable := PTERODACTYL_MIN_SCORE < currentScore
  if pterodactylAvailable then
    if pseudoRandom < 0.4 then 0
    else if pseudoRandom < 0.7 then 1
    else 2
  else
    if pseudoRandom < 0.5 then 0 else 1

/-- pseudoRandomObstacleVariant: second independent hash selecting the
visual variant, mod(fract(sin(segmentIndex * 78.233) * 127.1) * 3, 3). -/
def pseudoRandomObstacleVariant (sin : ℚ → ℚ) (segmentIndex : ℚ) : ℚ :=
  let pseudoRandom := Int.fract (sin (segmentIndex * 78.233) * 127.1)
  glslMod (pseudoRandom * 3) 3

/-! ### Jump integrator (tRexControls.ts, JUMP_PHYSICS lines 3-11,
startJump lines 91-102, endJump lines 104-109, controlsTRex lines
139-176).  The module-scoped mutable variables become an explicit
state record threaded through the handlers. -/

/-- INITIAL_JUMP_VELOCITY = 4.0 units/second upward. -/
def INITIAL_JUMP_VELOCITY : ℚ := 4.0

/-- GRAVITY = -9.0 units/second squared. -/
def GRAVITY : ℚ := -9.0

/-- DROP_VELOCITY = -1.5 units/second. -/
def DROP_VELOCITY : ℚ := -1.5

/-- GROUND_Y = 0, the ground level. -/
def GROUND_Y : ℚ := 0

/-- MIN_JUMP_HEIGHT = 0.4 units. -/
def MIN_JUMP_HEIGHT : ℚ := 0.4

/-- MAX_JUMP_HEIGHT = 3.5 units. -/
def MAX_JUMP_HEIGHT : ℚ := 3.5

/-- The module-level mutable state of tRexControls.ts. -/
structure TRexControlState where
  jumping : Bool
  ducking : Bool
  jumpVelocity : ℚ
  reachedMinHeight : Bool
  speedDrop : Bool
  jumpOffsetY : ℚ
deriving DecidableEq, Repr

/-- Ground state at module load: everything false, offset and velocity 0. -/
def groundState : TRexControlState :=
  { jumping := false, ducking := false, jumpVelocity := 0,
    reachedMinHeight := false, speedDrop := false, jumpOffsetY := 0 }

/-- startJump(): no-op while airborne, otherwise arm the jump with the
initial velocity. -/
def startJump (s : TRexControlState) : TRexControlState :=
  if s.jumping then s
  else { s with jumping := true, jumpVelocity := INITIAL_JUMP_VELOCITY,
                reachedMinHeight := false, speedDrop := false }

/-- endJump(): allow fast-fall if minimum height reached. -/
def endJump (s : TRexControlState) : TRexControlState :=
  if s.reachedMinHeight ∧ DROP_VELOCITY < s.jumpVelocity then
    { s with jumpVelocity := DROP_VELOCITY }
  else s

/-- controlsTRex(delta): explicit-Euler step (position first, then
gravity on the velocity), min/max height checks, and the landing branch
that clamps the offset to GROUND_Y and ends the jump.  The returned
offset of the source is the jumpOffsetY field of the result. -/
def controlsTRex (s : TRexControlState) (deltaTimeSeconds : ℚ) : TRexControlState :=
  if !s.jumping then s
  else
    let s1 := { s with jumpOffsetY := s.jumpOffsetY + s.jumpVelocity * deltaTimeSeconds }
    let s2 := { s1 with jumpVelocity := s1.jumpVelocity + GRAVITY * deltaTimeSeconds }
    let s3 :=
      if MIN_JUMP_HEIGHT < s2.jumpOffsetY ∨ s2.speedDrop then
        { s2 with reachedMinHeight := true }
      else s2
    let s4 :=
      if MAX_JUMP_HEIGHT < s3.jumpOffsetY ∨ s3.speedDrop then endJump s3 else s3
    if s4.jumpOffsetY ≤ GROUND_Y then
      let s5 := { s4 with jumpOffsetY := GROUND_Y, jumping := false,
                          jumpVelocity := 0, reachedMinHeight := false }
      if s5.speedDrop then { s5 with speedDrop := false, ducking := true } else s5
    else s4

/-- Integrate controlsTRex over a sequence of frame deltas. -/
def integrateTRex (s : TRexControlState) (deltas : List ℚ) : TRexControlState :=
  deltas.foldl controlsTRex s

/-! ### Score digit rendering (src/spriteScore.ts, spriteScore lines
52-92, getDigitAtPositionPerformant lines 100-115,
getDigitCountPerformant lines 127-138) -/

/-- getDigitCountPerformant: cascaded range selects, capped at 10. -/
def getDigitCountPerformant (value : ℤ) : ℤ :=
  let absValue := |value|
  if absValue < 10 then 1
  else if absValue < 100 then 2
  else if absValue < 1000 then 3
  else if absValue < 10000 then 4
  else if absValue < 100000 then 5
  else if absValue < 1000000 then 6
  else if absValue < 10000000 then 7
  else if absValue < 100000000 then 8
  else if absValue < 1000000000 then 9
  else 10

/-- getDigitAtPositionPerformant: cascaded divisor select then a single
division and mod 10. -/
def getDigitAtPositionPerformant (value digitIndex : ℤ) : ℤ :=
  let absValue := |value|
  let divisor : ℤ :=
    if digitIndex = 0 then 1
    else if digitIndex = 1 then 10
    else if digitIndex = 2 then 100
    else if digitIndex = 3 then 1000
    else if digitIndex = 4 then 10000
    else if digitIndex = 5 then 100000
    else if digitIndex = 6 then 1000000
    else if digitIndex = 7 then 10000000
    else if digitIndex = 8 then 100000000
    else 1000000000
  (absValue / divisor) % 10

/-- numDigitsScore of spriteScore: getDigitCountPerformant(score)
clamped to [5, 10]; this is the trip count of the digit-rendering loop,
one digit glyph per iteration.  The high-score digit count is computed
by the same expression applied to hiScore. -/
def numDigitsScore (score : ℤ) : ℤ :=
  min (max (getDigitCountPerformant score) 5) 10

/-- The digit glyphs drawn for the score, leftmost drawn last (the loop
draws positions 0 .. numDigitsScore-1). -/
def scoreDigitGlyphs (score : ℤ) : List ℤ :=
  (List.range (numDigitsScore score).toNat).map
    (fun i : ℕ => getDigitAtPositionPerformant score (Int.ofNat i))

/-- Decimal digit count as the spec words it: the length of the decimal
expansion of the magnitude, counting 0 as one digit.  This definition
follows the claim's words, for comparison against the source's
getDigitCountPerformant. -/
def decimalDigitCount (value : ℤ) : ℤ :=
  if value = 0 then 1 else ((Nat.digits 10 value.natAbs).length : ℤ)

/-! ### Helper lemmas on compositing -/

/-- Blending a fully transparent sprite (alpha 0) leaves the base color. -/
theorem blendSprite_alpha_zero (base : Rgb) (s : Rgba) (h : s.a = 0) :
    blendSprite base s = base := by
  simp [blendSprite, mixRgb, glslMix, h]

/-- Blending a fully opaque sprite (alpha 1) replaces the base color. -/
theorem blendSprite_alpha_one (base : Rgb) (s : Rgba) (h : s.a = 1) :
    blendSprite base s = ⟨s.r, s.g, s.b⟩ := by
  simp [blendSprite, mixRgb, glslMix, h]

/-- Equal back and front layers give a zero per-channel difference. -/
theorem maxColorDifference_eq_zero (base : Rgb) (trexSprite obstacleSprite : Rgba)
    (h : backLayerWithObstacles base trexSprite obstacleSprite =
      frontLayerColor base trexSprite obstacleSprite) :
    maxColorDifference base trexSprite obstacleSprite = 0 := by
  simp [maxColorDifference, h]

/-- A zero difference is below the 0.01 threshold. -/
theorem hasCollision_eq_false (base : Rgb) (trexSprite obstacleSprite : Rgba)
    (h : maxColorDifference base trexSprite obstacleSprite = 0) :
    hasCollision base trexSprite obstacleSprite = false := by
  simp [hasCollision, h]

/-! ### C1 -/

/-- C1: the night-mode inversion is applied before the collision-color
override, so whenever the back/front per-channel difference exceeds the
0.01 threshold (hasCollision true) the fragment shader returns exactly
the configured collision color, for every nightProgress in [0, 1]; the
inversion never alters a collision-flagged fragment's output. -/
theorem C1_collision_override_after_inversion
    (base : Rgb) (trexSprite obstacleSprite scoreSprite : Rgba)
    (isCrashed : Bool) (gameOverSprite restartSprite : Rgba)
    (nightProgress : ℚ) (collisionColor : Rgb)
    (hnp0 : 0 ≤ nightProgress) (hnp1 : nightProgress ≤ 1)
    (hc : hasCollision base trexSprite obstacleSprite = true) :
    fragmentOutput base trexSprite obstacleSprite scoreSprite isCrashed
      gameOverSprite restartSprite nightProgress collisionColor = collisionColor := by
  unfold fragmentOutput
  simp [hc]

/-- Witness for C1 at a concrete collision-flagged fragment. -/
theorem C1_collision_override_after_inversion_witness :
    hasCollision ⟨0, 0, 0⟩ ⟨1, 1, 1, 1⟩ ⟨0, 0, 0, 1⟩ = true ∧
    fragmentOutput ⟨0, 0, 0⟩ ⟨1, 1, 1, 1⟩ ⟨0, 0, 0, 1⟩ ⟨0, 0, 0, 0⟩ false
      ⟨0, 0, 0, 0⟩ ⟨0, 0, 0, 0⟩ (1/2) ⟨1/4, 1/4, 1/4⟩ = ⟨1/4, 1/4, 1/4⟩ :=
  ⟨by norm_num [hasCollision, maxColorDifference, frontLayerColor,
      backLayerWithObstacles, backLayerColor, blendSprite, mixRgb, glslMix],
    C1_collision_override_after_inversion ⟨0, 0, 0⟩ ⟨1, 1, 1, 1⟩ ⟨0, 0, 0, 1⟩
      ⟨0, 0, 0, 0⟩ false ⟨0, 0, 0, 0⟩ ⟨0, 0, 0, 0⟩ (1/2) ⟨1/4, 1/4, 1/4⟩
      (by norm_num) (by norm_num)
      (by norm_num [hasCollision, maxColorDifference, frontLayerColor,
        backLayerWithObstacles, backLayerColor, blendSprite, mixRgb, glslMix])⟩

/-! ### C2 -/

/-- C2 counterexample: with the obstacle sample fully transparent
(alpha 0, so no character/obstacle overlap at this pixel) but a
half-transparent T-Rex sample over a differing background, the back and
front composites differ and the pixel IS flagged as a collision pixel,
refuting the claim that obstacle alpha 0 or T-Rex alpha 0 forces the two
composites to coincide. -/
theorem C2_counterexample :
    Rgba.a ⟨0, 0, 0, 0⟩ = 0 ∧
    backLayerWithObstacles ⟨0, 0, 0⟩ ⟨1, 1, 1, 1/2⟩ ⟨0, 0, 0, 0⟩ ≠
      frontLayerColor ⟨0, 0, 0⟩ ⟨1, 1, 1, 1/2⟩ ⟨0, 0, 0, 0⟩ ∧
    hasCollision ⟨0, 0, 0⟩ ⟨1, 1, 1, 1/2⟩ ⟨0, 0, 0, 0⟩ = true := by
  refine ⟨rfl, ?_, ?_⟩
  · simp [backLayerWithObstacles, backLayerColor, frontLayerColor, blendSprite,
      mixRgb, glslMix, Rgb.mk.injEq]
    norm_num
  · norm_num [hasCollision, maxColorDifference, frontLayerColor,
      backLayerWithObstacles, backLayerColor, blendSprite, mixRgb, glslMix, lt_abs]

/-- C2 (amended): when the T-Rex sample's alpha is binary (0 or 1), a
pixel with no silhouette overlap (obstacle alpha 0 or T-Rex alpha 0) has
identical back-layer and front-layer composites, a zero per-channel
difference, and is not flagged as a collision pixel; for fractional
T-Rex alpha the double blend can differ even without overlap. -/
theorem C2_no_overlap_identical_layers
    (base : Rgb) (trexSprite obstacleSprite : Rgba)
    (hsep : obstacleSprite.a = 0 ∨ trexSprite.a = 0)
    (hbin : trexSprite.a = 0 ∨ trexSprite.a = 1) :
    backLayerWithObstacles base trexSprite obstacleSprite =
      frontLayerColor base trexSprite obstacleSprite ∧
    maxColorDifference base trexSprite obstacleSprite = 0 ∧
    hasCollision base trexSprite obstacleSprite = false := by
  have heq : backLayerWithObstacles base trexSprite obstacleSprite =
      frontLayerColor base trexSprite obstacleSprite := by
    rcases hbin with h0 | h1
    · unfold frontLayerColor
      rw [blendSprite_alpha_zero _ _ h0]
    · rcases hsep with ho | ht
      · unfold frontLayerColor backLayerWithObstacles backLayerColor
        rw [blendSprite_alpha_zero _ _ ho, blendSprite_alpha_one _ _ h1,
          blendSprite_alpha_one _ _ h1]
      · unfold frontLayerColor
        rw [blendSprite_alpha_zero _ _ ht]
  have hdiff := maxColorDifference_eq_zero base trexSprite obstacleSprite heq
  exact ⟨heq, hdiff, hasCollision_eq_false base trexSprite obstacleSprite hdiff⟩

/-- Witness for the amended C2 at a concrete non-overlapping pixel. -/
theorem C2_no_overlap_identical_layers_witness :
    backLayerWithObstacles ⟨1/2, 1/2, 1/2⟩ ⟨1, 0, 0, 1⟩ ⟨0, 1, 0, 0⟩ =
      frontLayerColor ⟨1/2, 1/2, 1/2⟩ ⟨1, 0, 0, 1⟩ ⟨0, 1, 0, 0⟩ ∧
    hasCollision ⟨1/2, 1/2, 1/2⟩ ⟨1, 0, 0, 1⟩ ⟨0, 1, 0, 0⟩ = false :=
  ⟨(C2_no_overlap_identical_layers ⟨1/2, 1/2, 1/2⟩ ⟨1, 0, 0, 1⟩ ⟨0, 1, 0, 0⟩
      (Or.inl rfl) (Or.inr rfl)).1,
    (C2_no_overlap_identical_layers ⟨1/2, 1/2, 1/2⟩ ⟨1, 0, 0, 1⟩ ⟨0, 1, 0, 0⟩
      (Or.inl rfl) (Or.inr rfl)).2.2⟩

/-! ### C5 -/

/-- C5: the sprite sampler's bounds are inclusive: a point is classified
in-bounds exactly when both axes of p/scale lie within half the sprite's
world-unit box (boundary points included), and any point strictly outside
that box samples to transparent black (0, 0, 0, 0). -/
theorem C5_sampleSprite_bounds
    (tex : ℚ → ℚ → Rgba) (p : Vec2) (scale spriteX spriteY spriteWidth spriteHeight : ℚ) :
    (spriteInBounds p scale spriteWidth spriteHeight = true ↔
      |p.x / scale| ≤ spriteWidth / PIXELS_PER_UNIT / 2 ∧
      |p.y / scale| ≤ spriteHeight / PIXELS_PER_UNIT / 2) ∧
    (spriteInBounds p scale spriteWidth spriteHeight = false →
      sampleSprite tex p scale spriteX spriteY spriteWidth spriteHeight = ⟨0, 0, 0, 0⟩) := by
  constructor
  · simp only [spriteInBounds, Bool.and_eq_true, decide_eq_true_eq, abs_le]
    tauto
  · intro h
    simp [sampleSprite, h]

/-- Witness for C5: a boundary point is in-bounds, and a point strictly
outside samples to transparent black. -/
theorem C5_sampleSprite_bounds_witness :
    spriteInBounds ⟨22/100, 0⟩ 1 44 47 = true ∧
    sampleSprite (fun _ _ => ⟨1, 1, 1, 1⟩) ⟨23/100, 0⟩ 1 848 2 44 47 = ⟨0, 0, 0, 0⟩ :=
  ⟨(C5_sampleSprite_bounds (fun _ _ => ⟨1, 1, 1, 1⟩) ⟨22/100, 0⟩ 1 848 2 44 47).1.mpr
      (by norm_num [PIXELS_PER_UNIT, abs_le]),
    (C5_sampleSprite_bounds (fun _ _ => ⟨1, 1, 1, 1⟩) ⟨23/100, 0⟩ 1 848 2 44 47).2
      (by norm_num [spriteInBounds, PIXELS_PER_UNIT])⟩

/-! ### Helper lemmas on smoothstep -/

/-- smoothstep saturates to 1 once the normalized position reaches 1. -/
theorem smoothstep_eq_one (edge0 edge1 x : ℚ) (h : 1 ≤ (x - edge0) / (edge1 - edge0)) :
    smoothstep edge0 edge1 x = 1 := by
  unfold smoothstep
  rw [max_eq_left (le_trans zero_le_one h), min_eq_right h]
  ring

/-- smoothstep saturates to 0 while the normalized position is below 0. -/
theorem smoothstep_eq_zero (edge0 edge1 x : ℚ) (h : (x - edge0) / (edge1 - edge0) ≤ 0) :
    smoothstep edge0 edge1 x = 0 := by
  unfold smoothstep
  rw [max_eq_right h, min_eq_left (by norm_num : (0:ℚ) ≤ 1)]
  ring

/-! ### C6 -/

/-- C6: calculateNightMode returns progress 0 below the 700 interval,
cycleCount = floor(score/700) always, progress saturated at 1 throughout
the interior [10, 290] of the 300-wide night window and back at 0 from
position 300 on; in particular calculateNightMode 0 = (0, 0) and at the
mid-window score 850 it returns progress 1 with cycleCount 1. -/
theorem C6_calculateNightMode_contract :
    (∀ score : ℚ,
      (score < 700 → (calculateNightMode score).1 = 0) ∧
      (calculateNightMode score).2 = (⌊score / 700⌋ : ℚ) ∧
      (700 ≤ score → 10 ≤ glslMod (score - 700) 700 → glslMod (score - 700) 700 ≤ 290 →
        (calculateNightMode score).1 = 1) ∧
      (700 ≤ score → 300 ≤ glslMod (score - 700) 700 → (calculateNightMode score).1 = 0)) ∧
    calculateNightMode 0 = (0, 0) ∧
    calculateNightMode 850 = (1, 1) := by
  refine ⟨fun score => ⟨?_, rfl, ?_, ?_⟩, ?_, ?_⟩
  · intro h
    have hn : ¬ (INVERT_DISTANCE ≤ score) := by
      rw [INVERT_DISTANCE]; linarith
    simp [calculateNightMode, hn]
  · intro h1 h2 h3
    have e1 : smoothstep 0 TRANSITION_DURATION (glslMod (score - INVERT_DISTANCE) INVERT_DISTANCE) = 1 := by
      apply smoothstep_eq_one
      rw [TRANSITION_DURATION, INVERT_DISTANCE]
      rw [le_div_iff (by norm_num)]
      linarith
    have e2 : smoothstep NIGHT_WINDOW (NIGHT_WINDOW - TRANSITION_DURATION)
        (glslMod (score - INVERT_DISTANCE) INVERT_DISTANCE) = 1 := by
      apply smoothstep_eq_one
      rw [NIGHT_WINDOW, TRANSITION_DURATION, INVERT_DISTANCE]
      have hrw : (glslMod (score - 700) 700 - 300) / (300 - 10 - 300) =
          (300 - glslMod (score - 700) 700) / 10 := by ring
      rw [hrw, le_div_iff (by norm_num)]
      linarith
    have hpos : INVERT_DISTANCE ≤ score := by rw [INVERT_DISTANCE]; exact h1
    simp [calculateNightMode, hpos, e1, e2]
  · intro h1 h2
    have e2 : smoothstep NIGHT_WINDOW (NIGHT_WINDOW - TRANSITION_DURATION)
        (glslMod (score - INVERT_DISTANCE) INVERT_DISTANCE) = 0 := by
      apply smoothstep_eq_zero
      rw [NIGHT_WINDOW, TRANSITION_DURATION, INVERT_DISTANCE]
      have hrw : (glslMod (score - 700) 700 - 300) / (300 - 10 - 300) =
          (300 - glslMod (score - 700) 700) / 10 := by ring
      rw [hrw]
      apply div_nonpos_of_nonpos_of_nonneg
      · linarith
      · norm_num
    have hpos : INVERT_DISTANCE ≤ score := by rw [INVERT_DISTANCE]; exact h1
    simp [calculateNightMode, hpos, e2]
  · norm_num [calculateNightMode, INVERT_DISTANCE, Prod.ext_iff]
  · have hcp : glslMod ((850:ℚ) - INVERT_DISTANCE) INVERT_DISTANCE = 150 := by
      norm_num [glslMod, INVERT_DISTANCE]
    have e1 : smoothstep 0 TRANSITION_DURATION ((150:ℚ)) = 1 := by
      apply smoothstep_eq_one
      rw [TRANSITION_DURATION]
      norm_num
    have e2 : smoothstep NIGHT_WINDOW (NIGHT_WINDOW - TRANSITION_DURATION) ((150:ℚ)) = 1 := by
      apply smoothstep_eq_one
      rw [NIGHT_WINDOW, TRANSITION_DURATION]
      norm_num
    have hpos : INVERT_DISTANCE ≤ (850:ℚ) := by rw [INVERT_DISTANCE]; norm_num
    simp [calculateNightMode, hpos, hcp, e1, e2, Prod.ext_iff]
    norm_num [INVERT_DISTANCE]

/-- Witness for C6: a pre-interval score has progress 0, and a score in
the second cycle's window interior has progress 1. -/
theorem C6_calculateNightMode_contract_witness :
    (calculateNightMode 650).1 = 0 ∧ (calculateNightMode 1550).1 = 1 :=
  ⟨(C6_calculateNightMode_contract.1 650).1 (by norm_num),
    (C6_calculateNightMode_contract.1 1550).2.2.1 (by norm_num)
      (by norm_num [glslMod]) (by norm_num [glslMod])⟩

/-! ### C7 -/

/-- While crashed, no frame update changes any field. -/
theorem animateFrames_crashed (o : GameOptions) (deltas : List ℚ)
    (h : o.trexState = TREX_STATE_CRASHED) :
    animateFrames o deltas = o := by
  induction deltas generalizing o with
  | nil => rfl
  | cons d ds ih =>
      have hstep : animateGameUpdate o d = o := by
        simp [animateGameUpdate, isGameRunning, h, TREX_STATE_CRASHED]
      show animateFrames (animateGameUpdate o d) ds = o
      rw [hstep]
      exact ih o h

/-- C7: while the character state is Crashed, every frame step of the
animation loop leaves distanceRan and score unchanged (the running-state
guard excludes Crashed), for arbitrarily many subsequent frames, and a
restart resets the state to distanceRan 0, score 0, state Running. -/
theorem C7_crash_freezes_game (o : GameOptions) (deltas : List ℚ)
    (h : o.trexState = TREX_STATE_CRASHED) :
    (animateFrames o deltas).distanceRan = o.distanceRan ∧
    (animateFrames o deltas).score = o.score ∧
    (animateFrames o deltas).trexState = TREX_STATE_CRASHED ∧
    (gameRestart (animateFrames o deltas)).distanceRan = 0 ∧
    (gameRestart (animateFrames o deltas)).score = 0 ∧
    (gameRestart (animateFrames o deltas)).trexState = TREX_STATE_RUNNING := by
  rw [animateFrames_crashed o deltas h]
  exact ⟨rfl, rfl, h, rfl, rfl, rfl⟩

/-- Witness for C7 on a concrete crashed state over two frames. -/
theorem C7_crash_freezes_game_witness :
    (animateFrames ⟨0, 1/100, TREX_STATE_CRASHED, 0, 42, 9/5, 100⟩ [1/60, 1/30]).distanceRan = 100 ∧
    (animateFrames ⟨0, 1/100, TREX_STATE_CRASHED, 0, 42, 9/5, 100⟩ [1/60, 1/30]).score = 42 ∧
    (gameRestart (animateFrames ⟨0, 1/100, TREX_STATE_CRASHED, 0, 42, 9/5, 100⟩ [1/60, 1/30])).score = 0 :=
  ⟨(C7_crash_freezes_game ⟨0, 1/100, TREX_STATE_CRASHED, 0, 42, 9/5, 100⟩ [1/60, 1/30] rfl).1,
    (C7_crash_freezes_game ⟨0, 1/100, TREX_STATE_CRASHED, 0, 42, 9/5, 100⟩ [1/60, 1/30] rfl).2.1,
    (C7_crash_freezes_game ⟨0, 1/100, TREX_STATE_CRASHED, 0, 42, 9/5, 100⟩ [1/60, 1/30] rfl).2.2.2.2.1⟩

/-! ### C8 -/

/-- C8: the obstacle dispatcher's type hash only returns a cactus type
(0 small or 1 large) when the score is at or below the 450 pterodactyl
gate; type 2 (pterodactyl) implies the score exceeds 450 and is reached
above the gate whenever the segment hash lands at or above 0.7; and both
the type hash and the variant hash are deterministic in
(segmentIndex, score), for every sine implementation. -/
theorem C8_obstacle_type_gating (sin : ℚ → ℚ) (segmentIndex currentScore : ℚ) :
    (currentScore ≤ 450 →
      pseudoRandomObstacleType sin segmentIndex currentScore = 0 ∨
      pseudoRandomObstacleType sin segmentIndex currentScore = 1) ∧
    (pseudoRandomObstacleType sin segmentIndex currentScore = 2 → 450 < currentScore) ∧
    (450 < currentScore →
      (0.7 : ℚ) ≤ Int.fract (sin (segmentIndex * 21.9898) * 43758.5453) →
      pseudoRandomObstacleType sin segmentIndex currentScore = 2) ∧
    pseudoRandomObstacleType sin segmentIndex currentScore =
      pseudoRandomObstacleType sin segmentIndex currentScore ∧
    pseudoRandomObstacleVariant sin segmentIndex =
      pseudoRandomObstacleVariant sin segmentIndex := by
  refine ⟨?_, ?_, ?_, rfl, rfl⟩
  · intro hle
    have hno : ¬ (PTERODACTYL_MIN_SCORE < currentScore) := by
      rw [PTERODACTYL_MIN_SCORE]; linarith
    simp only [pseudoRandomObstacleType, if_neg hno]
    split_ifs <;> simp
  · intro h2
    by_contra hno
    simp only [pseudoRandomObstacleType, PTERODACTYL_MIN_SCORE] at h2
    rw [if_neg hno] at h2
    split_ifs at h2 <;> norm_num at h2
  · intro hgt hfr
    simp only [pseudoRandomObstacleType, PTERODACTYL_MIN_SCORE]
    rw [if_pos hgt, if_neg (not_lt.mpr (le_trans (by norm_num) hfr)),
      if_neg (not_lt.mpr (le_trans (by norm_num) hfr))]

/-- Witness for C8: below the gate only cacti, above it a high hash
value yields the pterodactyl. -/
theorem C8_obstacle_type_gating_witness :
    (pseudoRandomObstacleType (fun _ => 0) 3 400 = 0 ∨
      pseudoRandomObstacleType (fun _ => 0) 3 400 = 1) ∧
    pseudoRandomObstacleType (fun _ => (3/4) / (43758.5453 : ℚ)) 3 500 = 2 :=
  ⟨(C8_obstacle_type_gating (fun _ => 0) 3 400).1 (by norm_num),
    (C8_obstacle_type_gating (fun _ => (3/4) / (43758.5453 : ℚ)) 3 500).2.2.1
      (by norm_num) (by norm_num [Int.fract])⟩

/-! ### C4 -/

/-- Iterated gate steps over an event trace. -/
def gateRun (s : GateState) (events : List GateEvent) : GateState :=
  events.foldl gateStep s

/-- C4 counterexample: the interval gate does not consult the pending
promise.  From page load, a frame at 0.06 s starts a readback; with no
resolution in between, a frame at 0.12 s passes the interval check again
and starts a second readback while the first is still in flight — the
trace has a start-while-pending and ends with two readbacks in flight,
refuting the claim that a new cycle is never started while one is
pending. -/
theorem C4_counterexample :
    startsWhileInFlight loadGateState
      [GateEvent.frame 0.06 true, GateEvent.frame 0.12 true] = 1 ∧
    (gateRun loadGateState
      [GateEvent.frame 0.06 true, GateEvent.frame 0.12 true]).inFlight = 2 := by
  norm_num [startsWhileInFlight, gateRun, gateStep, gateStarted, loadGateState,
    COLLISION_DETECTION_INTERVAL, List.foldl]

/-- C4 (amended): the gate enforces rate limiting, not single-flight:
along any event trace, successive detectCollision starts (and the first
start after the last stamped check time) are separated by strictly more
than the 50 ms interval; the gate never inspects the in-flight count, so
readbacks can stack whenever one outlasts the interval. -/
theorem C4_interval_gate_rate_limits (s : GateState) (events : List GateEvent) :
    List.Chain (fun a b => COLLISION_DETECTION_INTERVAL < b - a)
      s.lastCollisionCheckTime (startTimes s events) := by
  induction events generalizing s with
  | nil => exact List.Chain.nil
  | cons e es ih =>
      cases e with
      | frame t running =>
          by_cases h : gateStarted s (GateEvent.frame t running) = true
          · have hb := h
            simp only [gateStarted] at hb
            have hlt : COLLISION_DETECTION_INTERVAL < t - s.lastCollisionCheckTime := by
              have hb2 := hb
              simp only [Bool.and_eq_true, decide_eq_true_eq] at hb2
              exact hb2.2
            have hstep : gateStep s (GateEvent.frame t running) =
                { lastCollisionCheckTime := t, inFlight := s.inFlight + 1 } := by
              simp only [gateStep, hb, if_pos]
            simp only [startTimes, if_pos h]
            refine List.Chain.cons hlt ?_
            rw [hstep]
            exact ih { lastCollisionCheckTime := t, inFlight := s.inFlight + 1 }
          · have hb : (running && decide (COLLISION_DETECTION_INTERVAL <
                t - s.lastCollisionCheckTime)) = false := by
              have := h
              simp only [gateStarted] at this
              exact Bool.not_eq_true _ ▸ (by simpa using this)
            have hstep : gateStep s (GateEvent.frame t running) = s := by
              simp only [gateStep, hb, Bool.false_eq_true, if_false]
            simp only [startTimes, if_neg h, hstep]
            exact ih s
      | resolve =>
          simp only [startTimes]
          exact ih (gateStep s GateEvent.resolve)

/-! ### C9 -/

/-- C9 counterexample: a single positive delta of 1 s (which reaches and
exceeds the analytic flight time 8/9 s by far more than any small
epsilon) leaves the integrator at offset 4, still jumping: an arbitrary
positive-delta sequence whose total passes the flight time need not have
returned the offset to 0, because coarse Euler steps overshoot. -/
theorem C9_counterexample :
    (controlsTRex (startJump groundState) 1).jumpOffsetY = 4 ∧
    (controlsTRex (startJump groundState) 1).jumping = true ∧
    (8 : ℚ)/9 ≤ 1 := by
  norm_num [controlsTRex, startJump, endJump, groundState, INITIAL_JUMP_VELOCITY,
    GRAVITY, DROP_VELOCITY, GROUND_Y, MIN_JUMP_HEIGHT, MAX_JUMP_HEIGHT]

/-- C9 (amended): the landing branch clamps the offset to exactly the
ground value: integrating the jump from the ground state with uniform
steps fine enough not to overshoot — here nine steps of 1/9 s — returns
the integrator exactly to the ground state (offset exactly 0, jump
ended) at the first step whose total elapsed time 1 s passes the
analytic flight time 8/9 s; coarse steps can overshoot instead. -/
theorem C9_jump_lands_exactly_on_fine_steps :
    integrateTRex (startJump groundState) (List.replicate 9 ((1:ℚ)/9)) = groundState ∧
    (List.replicate 9 ((1:ℚ)/9)).sum = 1 ∧
    (8 : ℚ)/9 ≤ 1 := by
  refine ⟨?_, by norm_num [List.sum_replicate], by norm_num⟩
  norm_num [integrateTRex, List.replicate, List.foldl, controlsTRex, startJump,
    endJump, groundState, INITIAL_JUMP_VELOCITY, GRAVITY, DROP_VELOCITY,
    GROUND_Y, MIN_JUMP_HEIGHT, MAX_JUMP_HEIGHT]

/-! ### C3 -/

/-- The tail of a list reads one position further into the list. -/
theorem getD_tail (l : List ℕ) (i : ℕ) : l.tail.getD i 0 = l.getD (i + 1) 0 := by
  cases l <;> simp [List.getD]

/-- The scan loop's count is positive exactly when some pixel index i
(stride 4, reading bytes 4i, 4i+1, 4i+2) matches the target color. -/
theorem collisionPixelCount_pos_iff (targetR targetG targetB : ℚ) :
    ∀ (buf : List ℕ),
      (0 < collisionPixelCount buf targetR targetG targetB ↔
        ∃ i, 4 * i + 2 < buf.length ∧
          isCollisionColor (buf.getD (4 * i) 0) (buf.getD (4 * i + 1) 0)
            (buf.getD (4 * i + 2) 0) targetR targetG targetB = true) := by
  have main : ∀ (n : ℕ) (buf : List ℕ), buf.length ≤ n →
      (0 < collisionPixelCount buf targetR targetG targetB ↔
        ∃ i, 4 * i + 2 < buf.length ∧
          isCollisionColor (buf.getD (4 * i) 0) (buf.getD (4 * i + 1) 0)
            (buf.getD (4 * i + 2) 0) targetR targetG targetB = true) := by
    intro n
    induction n with
    | zero =>
        intro buf hb
        have hnil : buf = [] := List.length_eq_zero.mp (Nat.le_zero.mp hb)
        subst hnil
        constructor
        · intro h
          simp [collisionPixelCount] at h
        · rintro ⟨i, hi, -⟩
          simp at hi
    | succ n ih =>
        intro buf hb
        rcases buf with _ | ⟨r, _ | ⟨g, _ | ⟨b, rest⟩⟩⟩
        · constructor
          · intro h
            simp [collisionPixelCount] at h
          · rintro ⟨i, hi, -⟩
            simp at hi
        · constructor
          · intro h
            simp [collisionPixelCount] at h
          · rintro ⟨i, hi, -⟩
            simp at hi
        · constructor
          · intro h
            simp [collisionPixelCount] at h
          · rintro ⟨i, hi, -⟩
            simp at hi
        · have hcount : collisionPixelCount (r :: g :: b :: rest) targetR targetG targetB =
              (if isCollisionColor r g b targetR targetG targetB then 1 else 0) +
                collisionPixelCount rest.tail targetR targetG targetB := by
            rw [collisionPixelCount]
          have htl : rest.tail.length = rest.length - 1 := List.length_tail rest
          have ihtail := ih rest.tail (by
            simp only [List.length_cons] at hb
            omega)
          have e1 : ∀ i : ℕ, (r :: g :: b :: rest).getD (4 * (i + 1)) 0 =
              rest.tail.getD (4 * i) 0 := by
            intro i
            rw [show 4 * (i + 1) = 4 * i + 1 + 1 + 1 + 1 from by ring]
            simp [List.getD_cons_succ, getD_tail]
          have e2 : ∀ i : ℕ, (r :: g :: b :: rest).getD (4 * (i + 1) + 1) 0 =
              rest.tail.getD (4 * i + 1) 0 := by
            intro i
            rw [show 4 * (i + 1) + 1 = 4 * i + 2 + 1 + 1 + 1 from by ring]
            simp [List.getD_cons_succ, getD_tail]
          have e3 : ∀ i : ℕ, (r :: g :: b :: rest).getD (4 * (i + 1) + 2) 0 =
              rest.tail.getD (4 * i + 2) 0 := by
            intro i
            rw [show 4 * (i + 1) + 2 = 4 * i + 3 + 1 + 1 + 1 from by ring]
            simp [List.getD_cons_succ, getD_tail]
          constructor
          · intro hpos
            rw [hcount] at hpos
            by_cases hm : isCollisionColor r g b targetR targetG targetB = true
            · exact ⟨0, by simp, by simpa using hm⟩
            · have hrest : 0 < collisionPixelCount rest.tail targetR targetG targetB := by
                simp [hm] at hpos
                exact hpos
              obtain ⟨i, hlen, hmatch⟩ := ihtail.mp hrest
              refine ⟨i + 1, ?_, ?_⟩
              · simp only [List.length_cons]
                omega
              · rw [e1 i, e2 i, e3 i]
                exact hmatch
          · rintro ⟨i, hlen, hmatch⟩
            rw [hcount]
            cases i with
            | zero =>
                have hm : isCollisionColor r g b targetR targetG targetB = true := by
                  simpa using hmatch
                simp [hm]
            | succ j =>
                have hmatch2 : isCollisionColor (rest.tail.getD (4 * j) 0)
                    (rest.tail.getD (4 * j + 1) 0) (rest.tail.getD (4 * j + 2) 0)
                    targetR targetG targetB = true := by
                  rw [← e1 j, ← e2 j, ← e3 j]
                  exact hmatch
                have hlen2 : 4 * j + 2 < rest.tail.length := by
                  simp only [List.length_cons] at hlen
                  omega
                have hrest := ihtail.mpr ⟨j, hlen2, hmatch2⟩
                exact Nat.add_pos_right _ hrest
  intro buf
  exact main buf.length buf le_rfl

/-- C3: detectCollision's readback scan returns true iff at least one
pixel of the RGBA byte buffer matches the target collision color on all
three color channels within the strict 0.01 per-channel tolerance
(alpha ignored); with zero matches it returns false. -/
theorem C3_detectCollisionScan_iff (buf : List ℕ) (targetR targetG targetB : ℚ) :
    detectCollisionScan buf targetR targetG targetB = true ↔
      ∃ i, 4 * i + 2 < buf.length ∧
        |(buf.getD (4 * i) 0 : ℚ) / 255 - targetR| < 1/100 ∧
        |(buf.getD (4 * i + 1) 0 : ℚ) / 255 - targetG| < 1/100 ∧
        |(buf.getD (4 * i + 2) 0 : ℚ) / 255 - targetB| < 1/100 := by
  rw [detectCollisionScan, decide_eq_true_eq, collisionPixelCount_pos_iff]
  simp [isCollisionColor, Bool.and_eq_true, decide_eq_true_eq,
    COLLISION_COLOR_DETECTION_TOLERANCE, and_assoc]

/-- Witness instantiating C3 on a concrete buffer: a two-pixel buffer
whose second pixel matches the target color scans to true, and an
all-zero buffer scans to false against a far-away target. -/
theorem C3_detectCollisionScan_iff_witness :
    detectCollisionScan [0, 0, 0, 255, 68, 68, 68, 255] (68/255) (68/255) (68/255) = true ∧
    detectCollisionScan [0, 0, 0, 255] (68/255) (68/255) (68/255) = false := by
  constructor
  · rw [C3_detectCollisionScan_iff]
    refine ⟨1, by norm_num, ?_, ?_, ?_⟩ <;> norm_num [List.getD]
  · rw [← Bool.not_eq_true, C3_detectCollisionScan_iff]
    rintro ⟨i, hlen, h1, -⟩
    simp only [List.length_cons, List.length_nil] at hlen
    have hi0 : i = 0 := by omega
    subst hi0
    norm_num [List.getD, abs_lt] at h1

/-! ### C10 -/

/-- Length of the base-10 expansion is at most k iff the value is below
10^k. -/
theorem digitsLen_le_iff (m k : ℕ) : (Nat.digits 10 m).length ≤ k ↔ m < 10 ^ k := by
  constructor
  · intro h
    calc m < 10 ^ (Nat.digits 10 m).length := Nat.lt_base_pow_length_digits (by norm_num)
    _ ≤ 10 ^ k := Nat.pow_le_pow_right (by norm_num) h
  · intro h
    by_contra hk
    push_neg at hk
    have hm : m ≠ 0 := by
      rintro rfl
      simp at hk
    have h1 : 10 ^ (k + 1) ≤ 10 ^ (Nat.digits 10 m).length :=
      Nat.pow_le_pow_right (by norm_num) hk
    have h2 : 10 ^ (Nat.digits 10 m).length ≤ 10 * m :=
      Nat.base_pow_length_digits_le 10 m (by norm_num) hm
    have h3 : 10 ^ (k + 1) ≤ 10 * m := le_trans h1 h2
    rw [pow_succ] at h3
    linarith

/-- Every value has at least one decimal digit. -/
theorem decimalDigitCount_pos (v : ℤ) : 1 ≤ decimalDigitCount v := by
  unfold decimalDigitCount
  split_ifs with h
  · exact le_refl 1
  · have hne : v.natAbs ≠ 0 := by simpa using h
    have hnil : Nat.digits 10 v.natAbs ≠ [] := Nat.digits_ne_nil_iff_ne_zero.mpr hne
    have hlp : 1 ≤ (Nat.digits 10 v.natAbs).length := List.length_pos.mpr hnil
    exact_mod_cast hlp

/-- A value with at most k decimal digits is below 10^k in magnitude. -/
theorem abs_lt_pow_of_dc_le (v : ℤ) (k : ℕ) (h : decimalDigitCount v ≤ (k : ℤ)) :
    |v| < 10 ^ k := by
  unfold decimalDigitCount at h
  split_ifs at h with h0
  · subst h0
    simp only [abs_zero]
    positivity
  · have hlen : (Nat.digits 10 v.natAbs).length ≤ k := by exact_mod_cast h
    have := (digitsLen_le_iff v.natAbs k).mp hlen
    rw [Int.abs_eq_natAbs]
    exact_mod_cast this

/-- A value below 10^k in magnitude has at most k decimal digits. -/
theorem dc_le_of_abs_lt (v : ℤ) (k : ℕ) (hk : 1 ≤ k) (h : |v| < 10 ^ k) :
    decimalDigitCount v ≤ (k : ℤ) := by
  unfold decimalDigitCount
  split_ifs with h0
  · exact_mod_cast hk
  · have hn : v.natAbs < 10 ^ k := by
      rw [Int.abs_eq_natAbs] at h
      exact_mod_cast h
    have := (digitsLen_le_iff v.natAbs k).mpr hn
    exact_mod_cast this

/-- Exact decimal digit count over a power-of-ten interval. -/
theorem dc_eq_of_bounds (v : ℤ) (k : ℕ) (h1 : (10 : ℤ) ^ k ≤ |v|) (h2 : |v| < 10 ^ (k + 1)) :
    decimalDigitCount v = (k : ℤ) + 1 := by
  have hp : (0 : ℤ) < 10 ^ k := pow_pos (by norm_num) k
  have hv : v ≠ 0 := by
    rintro rfl
    simp at h1
    linarith
  unfold decimalDigitCount
  rw [if_neg hv]
  have hn1 : 10 ^ k ≤ v.natAbs := by
    rw [Int.abs_eq_natAbs] at h1
    exact_mod_cast h1
  have hn2 : v.natAbs < 10 ^ (k + 1) := by
    rw [Int.abs_eq_natAbs] at h2
    exact_mod_cast h2
  have hle : (Nat.digits 10 v.natAbs).length ≤ k + 1 := (digitsLen_le_iff _ _).mpr hn2
  have hgt : ¬ ((Nat.digits 10 v.natAbs).length ≤ k) := by
    intro hc
    have := (digitsLen_le_iff v.natAbs k).mp hc
    omega
  have hexact : (Nat.digits 10 v.natAbs).length = k + 1 := by omega
  rw [hexact]
  push_cast
  ring

/-- Minimum decimal digit count forced by a power-of-ten lower bound. -/
theorem dc_ge_of_pow_le (v : ℤ) (k : ℕ) (h1 : (10 : ℤ) ^ k ≤ |v|) :
    (k : ℤ) + 1 ≤ decimalDigitCount v := by
  have hp : (0 : ℤ) < 10 ^ k := pow_pos (by norm_num) k
  have hv : v ≠ 0 := by
    rintro rfl
    simp at h1
    linarith
  unfold decimalDigitCount
  rw [if_neg hv]
  have hn1 : 10 ^ k ≤ v.natAbs := by
    rw [Int.abs_eq_natAbs] at h1
    exact_mod_cast h1
  have hgt : ¬ ((Nat.digits 10 v.natAbs).length ≤ k) := by
    intro hc
    have := (digitsLen_le_iff v.natAbs k).mp hc
    omega
  have : k + 1 ≤ (Nat.digits 10 v.natAbs).length := by omega
  exact_mod_cast this

/-- The source's cascaded digit counter equals the true decimal digit
count capped at 10. -/
theorem getDigitCountPerformant_eq_min (v : ℤ) :
    getDigitCountPerformant v = min 10 (decimalDigitCount v) := by
  show (if |v| < 10 then (1:ℤ)
    else if |v| < 100 then 2
    else if |v| < 1000 then 3
    else if |v| < 10000 then 4
    else if |v| < 100000 then 5
    else if |v| < 1000000 then 6
    else if |v| < 10000000 then 7
    else if |v| < 100000000 then 8
    else if |v| < 1000000000 then 9
    else 10) = min 10 (decimalDigitCount v)
  split_ifs with h1 h2 h3 h4 h5 h6 h7 h8 h9
  · rcases eq_or_ne v 0 with rfl | hv
    · simp [decimalDigitCount]
    · have : decimalDigitCount v = 1 := by
        have := dc_eq_of_bounds v 0 (by norm_num; exact Int.one_le_abs hv)
          (by norm_num; exact h1)
        simpa using this
      rw [this]
      norm_num
  · have : decimalDigitCount v = 2 := by
      have := dc_eq_of_bounds v 1 (by norm_num; exact not_lt.mp h1) (by norm_num; exact h2)
      simpa using this
    rw [this]
    norm_num
  · have : decimalDigitCount v = 3 := by
      have := dc_eq_of_bounds v 2 (by norm_num; exact not_lt.mp h2) (by norm_num; exact h3)
      simpa using this
    rw [this]
    norm_num
  · have : decimalDigitCount v = 4 := by
      have := dc_eq_of_bounds v 3 (by norm_num; exact not_lt.mp h3) (by norm_num; exact h4)
      simpa using this
    rw [this]
    norm_num
  · have : decimalDigitCount v = 5 := by
      have := dc_eq_of_bounds v 4 (by norm_num; exact not_lt.mp h4) (by norm_num; exact h5)
      simpa using this
    rw [this]
    norm_num
  · have : decimalDigitCount v = 6 := by
      have := dc_eq_of_bounds v 5 (by norm_num; exact not_lt.mp h5) (by norm_num; exact h6)
      simpa using this
    rw [this]
    norm_num
  · have : decimalDigitCount v = 7 := by
      have := dc_eq_of_bounds v 6 (by norm_num; exact not_lt.mp h6) (by norm_num; exact h7)
      simpa using this
    rw [this]
    norm_num
  · have : decimalDigitCount v = 8 := by
      have := dc_eq_of_bounds v 7 (by norm_num; exact not_lt.mp h7) (by norm_num; exact h8)
      simpa using this
    rw [this]
    norm_num
  · have : decimalDigitCount v = 9 := by
      have := dc_eq_of_bounds v 8 (by norm_num; exact not_lt.mp h8) (by norm_num; exact h9)
      simpa using this
    rw [this]
    norm_num
  · have hge := dc_ge_of_pow_le v 9 (by norm_num; exact not_lt.mp h9)
    have : min 10 (decimalDigitCount v) = 10 := min_eq_left (by push_cast at hge; linarith)
    rw [this]

/-- A digit position at or beyond the value's decimal digit count (and
within the cascade's 0..9 range) renders digit 0. -/
theorem getDigitAtPositionPerformant_eq_zero (v : ℤ) (i : ℤ)
    (hdc : decimalDigitCount v ≤ i) (hi : i ≤ 9) :
    getDigitAtPositionPerformant v i = 0 := by
  have h1 : 1 ≤ i := le_trans (decimalDigitCount_pos v) hdc
  unfold getDigitAtPositionPerformant
  interval_cases i
  · have hv := abs_lt_pow_of_dc_le v 1 (by exact_mod_cast hdc)
    norm_num at hv ⊢
    rw [Int.ediv_eq_zero_of_lt (abs_nonneg v) hv]
    exact dvd_zero 10
  · have hv := abs_lt_pow_of_dc_le v 2 (by exact_mod_cast hdc)
    norm_num at hv ⊢
    rw [Int.ediv_eq_zero_of_lt (abs_nonneg v) hv]
    exact dvd_zero 10
  · have hv := abs_lt_pow_of_dc_le v 3 (by exact_mod_cast hdc)
    norm_num at hv ⊢
    rw [Int.ediv_eq_zero_of_lt (abs_nonneg v) hv]
    exact dvd_zero 10
  · have hv := abs_lt_pow_of_dc_le v 4 (by exact_mod_cast hdc)
    norm_num at hv ⊢
    rw [Int.ediv_eq_zero_of_lt (abs_nonneg v) hv]
    exact dvd_zero 10
  · have hv := abs_lt_pow_of_dc_le v 5 (by exact_mod_cast hdc)
    norm_num at hv ⊢
    rw [Int.ediv_eq_zero_of_lt (abs_nonneg v) hv]
    exact dvd_zero 10
  · have hv := abs_lt_pow_of_dc_le v 6 (by exact_mod_cast hdc)
    norm_num at hv ⊢
    rw [Int.ediv_eq_zero_of_lt (abs_nonneg v) hv]
    exact dvd_zero 10
  · have hv := abs_lt_pow_of_dc_le v 7 (by exact_mod_cast hdc)
    norm_num at hv ⊢
    rw [Int.ediv_eq_zero_of_lt (abs_nonneg v) hv]
    exact dvd_zero 10
  · have hv := abs_lt_pow_of_dc_le v 8 (by exact_mod_cast hdc)
    norm_num at hv ⊢
    rw [Int.ediv_eq_zero_of_lt (abs_nonneg v) hv]
    exact dvd_zero 10
  · have hv := abs_lt_pow_of_dc_le v 9 (by exact_mod_cast hdc)
    norm_num at hv ⊢
    rw [Int.ediv_eq_zero_of_lt (abs_nonneg v) hv]
    exact dvd_zero 10

/-- C10: the score display draws exactly clamp(decimalDigitCount, 5, 10)
digit glyphs: every score below 100000 renders as exactly 5 digits, never
fewer than 5 nor more than 10 are drawn, the same clamp applies to the
high-score digits, and positions at or beyond the score's magnitude
render digit 0 (leading-zero padding). -/
theorem C10_score_digit_clamp (score hiScore : ℤ) :
    numDigitsScore score = min 10 (max 5 (decimalDigitCount score)) ∧
    ((scoreDigitGlyphs score).length : ℤ) = numDigitsScore score ∧
    (0 ≤ score → score < 100000 → numDigitsScore score = 5) ∧
    5 ≤ numDigitsScore score ∧
    numDigitsScore score ≤ 10 ∧
    numDigitsScore hiScore = min 10 (max 5 (decimalDigitCount hiScore)) ∧
    (∀ i : ℤ, decimalDigitCount score ≤ i → i ≤ 9 →
      getDigitAtPositionPerformant score i = 0) := by
  have hdc1 := decimalDigitCount_pos score
  have hdch := decimalDigitCount_pos hiScore
  have hg := getDigitCountPerformant_eq_min score
  have hgh := getDigitCountPerformant_eq_min hiScore
  have hb : 5 ≤ numDigitsScore score ∧ numDigitsScore score ≤ 10 := by
    unfold numDigitsScore
    omega
  refine ⟨?_, ?_, ?_, hb.1, hb.2, ?_, ?_⟩
  · unfold numDigitsScore
    rw [hg]
    omega
  · have hlen : (scoreDigitGlyphs score).length = (numDigitsScore score).toNat := by
      unfold scoreDigitGlyphs
      rw [List.length_map, List.length_range]
    rw [hlen]
    exact Int.toNat_of_nonneg (by linarith [hb.1])
  · intro h0 h5
    have habs : |score| < 10 ^ 5 := by
      rw [abs_of_nonneg h0]
      norm_num
      exact h5
    have := dc_le_of_abs_lt score 5 (by norm_num) habs
    unfold numDigitsScore
    rw [hg]
    omega
  · unfold numDigitsScore
    rw [hgh]
    omega
  · intro i hle hi
    exact getDigitAtPositionPerformant_eq_zero score i hle hi

/-- Witness for C10: the zero score renders exactly 5 digit glyphs, all
padded positions rendering digit 0. -/
theorem C10_score_digit_clamp_witness :
    numDigitsScore 0 = 5 ∧ getDigitAtPositionPerformant 0 4 = 0 :=
  ⟨(C10_score_digit_clamp 0 0).2.2.1 (by norm_num) (by norm_num),
    (C10_score_digit_clamp 0 0).2.2.2.2.2.2 4 (by simp [decimalDigitCount]) (by norm_num)⟩

end TslDino
